import Mathlib

/-!
Shallow embedding of the Tumo derivatives-protocol backend core:
the blockchain event indexer (`app/services/indexer.py`), the risk-engine
calculations (`app/services/blockchain.py`, `app/utils/calculations.py`),
the liquidation candidate scan (`app/services/liquidation.py` together with
`app/services/oracle.py`), and the funding-rate computation
(`app/services/funding.py`).

Python `Decimal` values are modelled as `ℚ` (exact arithmetic); database
tables are modelled as lists of rows, with SQLAlchemy `scalar_one_or_none`
look-ups modelled as first-match search and ORM row mutation modelled as
first-match replacement.  Python exceptions (`ValueError` from
`calculate_liquidation_price`, `DivisionByZero` from `Decimal` division)
are modelled with `Except String`.
-/

set_option maxRecDepth 100000

namespace Tumo

/-- Position side (`PositionSideEnum`): LONG or SHORT. -/
inductive Side where
  | long
  | short
deriving DecidableEq, Repr

/-- Position status (`PositionStatusEnum`). -/
inductive PositionStatus where
  | statusOpen
  | statusClosed
  | statusLiquidated
deriving DecidableEq, Repr

/-- A `PositionModel` row (`app/db/models.py`), restricted to the fields the
indexer and risk engine read or write. Timestamps are kept in seconds as `ℚ`
(the code converts millisecond event timestamps via `timestamp / 1000`). -/
structure Position where
  position_id : String
  user_address : String
  market_id : String
  side : Side
  size : ℚ
  collateral : ℚ
  leverage : ℚ
  entry_price : ℚ
  exit_price : Option ℚ
  status : PositionStatus
  realized_pnl : Option ℚ
  collateral_returned : Option ℚ
  accumulated_funding : ℚ
  transaction_hash : String
  close_transaction_hash : Option String
  created_at : ℚ
  closed_at : Option ℚ
  updated_at : Option ℚ
deriving DecidableEq, Repr

/-- A `MarketModel` row (`app/db/models.py`), restricted to the fields the
indexer, liquidation bot and funding service use. -/
structure Market where
  market_id : String
  symbol : String
  pyth_price_id : String
  maintenance_margin_rate : ℚ
  liquidation_fee_rate : ℚ
  max_funding_rate : ℚ
  total_long_positions : ℚ
  total_short_positions : ℚ
  current_funding_rate : ℚ
deriving DecidableEq, Repr

/-- A `LiquidationModel` row created by `_index_liquidations`. -/
structure LiquidationRecord where
  position_id : String
  market_id : String
  user_address : String
  liquidator_address : String
  liquidation_price : ℚ
  collateral : ℚ
  liquidation_fee : ℚ
  transaction_hash : String
  block_number : ℤ
deriving DecidableEq, Repr

/-- The relational state the indexer mutates: Position rows, Market rows,
LiquidationRecord rows and the per-chain sync checkpoint
(`BlockSyncModel.last_synced_block`). -/
structure Store where
  positions : List Position
  markets : List Market
  liquidations : List LiquidationRecord
  last_synced_block : ℤ
deriving DecidableEq, Repr

/-- Replace the first list element satisfying `p` by `f` of it
(models mutating the single ORM row returned by `scalar_one_or_none`). -/
def updateFirst {α : Type} (p : α → Bool) (f : α → α) : List α → List α
  | [] => []
  | x :: xs => if p x then f x :: xs else x :: updateFirst p f xs

namespace Utils

/-- Source `app/utils/calculations.py::calculate_health_factor`:
health factor with pnl computed as a ratio to the entry price and
maintenance margin `size_usd * maintenance_margin_rate`. Returns 0 when
`entry_price <= 0` and the sentinel 999999 when the margin is `<= 0`. -/
def calculate_health_factor (collateral size_usd entry_price current_price : ℚ)
    (is_long : Bool) (maintenance_margin_rate : ℚ)
    (accumulated_funding : ℚ) : ℚ :=
  if entry_price ≤ 0 then 0
  else
    let price_diff_ratio₀ := (current_price - entry_price) / entry_price
    let price_diff_ratio := if is_long then price_diff_ratio₀ else -price_diff_ratio₀
    let pnl := size_usd * price_diff_ratio
    let equity := collateral + pnl - accumulated_funding
    let maintenance_margin := size_usd * maintenance_margin_rate
    if maintenance_margin ≤ 0 then 999999
    else equity / maintenance_margin

/-- Source `app/utils/calculations.py::calculate_liquidation_price`:
raises `ValueError` when `leverage <= 0`; otherwise
long → `entry * (1 - 1/leverage + mmr)`, short → `entry * (1 + 1/leverage - mmr)`,
floored at 0. -/
def calculate_liquidation_price (entry_price leverage : ℚ) (is_long : Bool)
    (maintenance_margin_rate : ℚ) : Except String ℚ :=
  if leverage ≤ 0 then .error "leverage must be greater than 0"
  else
    let leverage_factor := 1 / leverage
    let liq_price :=
      if is_long then entry_price * (1 - leverage_factor + maintenance_margin_rate)
      else entry_price * (1 + leverage_factor - maintenance_margin_rate)
    .ok (max liq_price 0)

end Utils

namespace BlockchainService

/-- Source `app/services/blockchain.py::BlockchainService.calculate_health_factor`
(lines 230-276; `BlockchainServiceMock.calculate_health_factor` is
identical): pnl is `size * (current - entry)` for a long and its negation
for a short; maintenance margin is `size * current * mmr`; returns the
sentinel 999999 when the margin equals 0, else `equity / margin`. -/
def calculate_health_factor (collateral position_size entry_price current_price : ℚ)
    (is_long : Bool) (maintenance_margin_rate : ℚ)
    (accumulated_funding : ℚ) : ℚ :=
  let pnl :=
    if is_long then position_size * (current_price - entry_price)
    else position_size * (entry_price - current_price)
  let equity := collateral + pnl - accumulated_funding
  let position_value := position_size * current_price
  let maintenance_margin := position_value * maintenance_margin_rate
  if maintenance_margin = 0 then 999999
  else equity / maintenance_margin

/-- Source `BlockchainServiceMock.calculate_liquidation_price` (the instance the
liquidation bot calls): `inv_leverage = 1/leverage` raises
`decimal.DivisionByZero` when `leverage = 0`; no sign check, floored at 0. -/
def mock_calculate_liquidation_price (entry_price leverage : ℚ) (is_long : Bool)
    (maintenance_margin_rate : ℚ) : Except String ℚ :=
  if leverage = 0 then .error "division by zero"
  else
    let inv_leverage := 1 / leverage
    let price :=
      if is_long then entry_price * (1 - inv_leverage + maintenance_margin_rate)
      else entry_price * (1 + inv_leverage - maintenance_margin_rate)
    .ok (max price 0)

end BlockchainService

namespace Settings

/-- Source `app/core/config.py`: `MIN_HEALTH_FACTOR` default. -/
def min_health_factor : ℚ := 1

/-- Source `app/core/config.py`: `LIQUIDATION_REWARD_RATE` default. -/
def liquidation_reward_rate : ℚ := 5 / 100

/-- Source `app/core/config.py`: `FUNDING_RATE_CAP` default. -/
def funding_rate_cap : ℚ := 1 / 1000

end Settings

namespace FundingRateService

/-- Source `app/services/funding.py::FundingRateService._calculate_funding_rate`:
0 when total OI is 0, otherwise the OI imbalance times the cap, clamped
into `[-max_rate, max_rate]`. -/
def calculate_funding_rate (long_oi short_oi max_rate : ℚ) : ℚ :=
  let total_oi := long_oi + short_oi
  if total_oi = 0 then 0
  else
    let imbalance := (long_oi - short_oi) / total_oi
    let funding_rate := imbalance * max_rate
    max (min funding_rate max_rate) (-max_rate)

/-- Source `FundingRateService.calculate_funding_payment`: longs pay when the rate
is positive, shorts pay when it is negative. -/
def calculate_funding_payment (position_size funding_rate : ℚ)
    (is_long : Bool) : ℚ :=
  if is_long then position_size * funding_rate
  else -position_size * funding_rate

end FundingRateService

/-- Parsed `PositionOpened` event (`app/schemas/onechain.py::PositionOpenedEvent`)
together with the enclosing raw event's `txDigest`. `direction`: 0 = long,
1 = short; `timestamp` in unix milliseconds. -/
structure PositionOpenedEvent where
  position_id : String
  user : String
  market_id : String
  size : ℚ
  collateral : ℚ
  entry_price : ℚ
  direction : ℤ
  timestamp : ℤ
  txDigest : String
deriving DecidableEq, Repr

/-- Parsed `PositionClosed` event plus the raw event's `timestamp_ms` and
`txDigest`. -/
structure PositionClosedEvent where
  position_id : String
  user : String
  close_price : ℚ
  market_id : String
  size : ℚ
  collateral_returned : ℚ
  pnl : ℚ
  is_profit : Bool
  timestamp_ms : ℤ
  txDigest : String
deriving DecidableEq, Repr

/-- Parsed `PositionUpdated` event plus the raw event's `txDigest`. -/
structure PositionUpdatedEvent where
  user : String
  market_id : String
  position_id : String
  new_size : ℚ
  new_collateral : ℚ
  new_entry_price : ℚ
  direction : ℤ
  timestamp : ℤ
  txDigest : String
deriving DecidableEq, Repr

/-- Parsed `PositionLiquidated` event plus the raw event's `txDigest`. -/
structure PositionLiquidatedEvent where
  position_id : String
  owner : String
  liquidator : String
  market_id : String
  size : ℚ
  collateral : ℚ
  pnl : ℚ
  timestamp : ℤ
  txDigest : String
deriving DecidableEq, Repr

namespace BlockchainIndexer

/-- Source `BlockchainIndexer._update_market_stats`: add `size` to the long or
short open-interest total, or subtract it clamped at zero. A missing
market row is a silent no-op (`if not market: return`), which coincides
with `updateFirst` finding no match. -/
def update_market_stats (s : Store) (market_id : String) (size : ℚ)
    (is_long add : Bool) : Store :=
  let touch : Market → Market := fun m =>
    if add then
      if is_long then
        { m with total_long_positions := m.total_long_positions + size }
      else
        { m with total_short_positions := m.total_short_positions + size }
    else
      if is_long then
        { m with total_long_positions := max 0 (m.total_long_positions - size) }
      else
        { m with total_short_positions := max 0 (m.total_short_positions - size) }
  let markets := updateFirst (fun m => decide (m.market_id = market_id)) touch s.markets
  { s with markets := markets }

/-- The market-row mutation performed by
`BlockchainIndexer._update_market_stats_on_position_update` (indexer.py
lines 696-746): same direction → apply the size delta clamped at zero
(no-op when the delta is 0); direction flipped → remove the old size from
the old side clamped at zero, then add the new size to the new side. -/
def apply_position_update_to_market (m : Market) (old_size new_size : ℚ)
    (old_is_long new_is_long : Bool) : Market :=
  if old_is_long = new_is_long then
    let delta := new_size - old_size
    if delta = 0 then m
    else if old_is_long then
      { m with total_long_positions := max 0 (m.total_long_positions + delta) }
    else
      { m with total_short_positions := max 0 (m.total_short_positions + delta) }
  else
    let m₁ :=
      if old_is_long then
        { m with total_long_positions := max 0 (m.total_long_positions - old_size) }
      else
        { m with total_short_positions := max 0 (m.total_short_positions - old_size) }
    if new_is_long then
      { m₁ with total_long_positions := m₁.total_long_positions + new_size }
    else
      { m₁ with total_short_positions := m₁.total_short_positions + new_size }

/-- Source `BlockchainIndexer._update_market_stats_on_position_update`: locate the
market row and apply `apply_position_update_to_market`; a missing market is
a silent no-op. -/
def update_market_stats_on_position_update (s : Store) (market_id : String)
    (old_size new_size : ℚ) (old_is_long new_is_long : Bool) : Store :=
  let touch : Market → Market := fun m =>
    apply_position_update_to_market m old_size new_size old_is_long new_is_long
  let markets := updateFirst (fun m => decide (m.market_id = market_id)) touch s.markets
  { s with markets := markets }

/-- Source `BlockchainIndexer._index_position_opened`, one event: duplicate
`position_id` → skip; otherwise insert an OPEN Position with
`leverage = size / collateral` (0 when `collateral = 0`) and add its size
to the market's side total. -/
def index_position_opened (s : Store) (e : PositionOpenedEvent) : Store :=
  let user_address := e.user.toLower
  let is_long : Bool := decide (e.direction = 0)
  let leverage := if e.collateral > 0 then e.size / e.collateral else 0
  match s.positions.find? (fun p => decide (p.position_id = e.position_id)) with
  | some _ => s
  | none =>
    let position : Position :=
      { position_id := e.position_id
        user_address := user_address
        market_id := e.market_id
        side := if is_long then .long else .short
        size := e.size
        collateral := e.collateral
        leverage := leverage
        entry_price := e.entry_price
        exit_price := none
        status := .statusOpen
        realized_pnl := none
        collateral_returned := none
        accumulated_funding := 0
        transaction_hash := e.txDigest
        close_transaction_hash := none
        created_at := (e.timestamp : ℚ) / 1000
        closed_at := none
        updated_at := none }
    let s₁ := { s with positions := s.positions ++ [position] }
    update_market_stats s₁ e.market_id e.size is_long true

/-- Row predicate of the `select` used by the Closed and Updated handlers:
matching `position_id` AND `status == OPEN`. -/
def openPositionPred (position_id : String) (p : Position) : Bool :=
  decide (p.position_id = position_id ∧ p.status = PositionStatus.statusOpen)

/-- Source `BlockchainIndexer._index_position_closed`, one event: requires an OPEN
position with that id (otherwise skip with a warning); set status CLOSED,
realized pnl, returned collateral, exit price (only when `size > 0`) and
close metadata, then subtract the position's size from its market's side
total. -/
def index_position_closed (s : Store) (e : PositionClosedEvent) : Store :=
  match s.positions.find? (openPositionPred e.position_id) with
  | none => s
  | some position =>
    let close : Position → Position := fun p =>
      { p with status := .statusClosed
               realized_pnl := some e.pnl
               collateral_returned := some e.collateral_returned
               close_transaction_hash := some e.txDigest
               closed_at := some ((e.timestamp_ms : ℚ) / 1000)
               exit_price := if p.size > 0 then some e.close_price else p.exit_price }
    let positions := updateFirst (openPositionPred e.position_id) close s.positions
    let s₁ := { s with positions := positions }
    update_market_stats s₁ position.market_id position.size
      (decide (position.side = Side.long)) false

/-- Source `BlockchainIndexer._index_position_updated`, one event: requires an
OPEN position with that id (otherwise skip); overwrite size, collateral,
entry price, side and recomputed leverage, then fix up the market totals
from `(old_size, old_side)` to `(new_size, new_side)` on the event's
market. -/
def index_position_updated (s : Store) (e : PositionUpdatedEvent) : Store :=
  let new_is_long : Bool := decide (e.direction = 0)
  match s.positions.find? (openPositionPred e.position_id) with
  | none => s
  | some position =>
    let old_size := position.size
    let old_is_long : Bool := decide (position.side = Side.long)
    let applyUpdate : Position → Position := fun p =>
      { p with size := e.new_size
               collateral := e.new_collateral
               entry_price := e.new_entry_price
               side := if new_is_long then .long else .short
               leverage := if e.new_collateral > 0
                 then e.new_size / e.new_collateral else 0
               updated_at := some ((e.timestamp : ℚ) / 1000) }
    let positions := updateFirst (openPositionPred e.position_id) applyUpdate s.positions
    let s₁ := { s with positions := positions }
    update_market_stats_on_position_update s₁ e.market_id old_size e.new_size
      old_is_long new_is_long

/-- Source `BlockchainIndexer._index_liquidations`, one event. The position
look-up filters on `position_id` only — unlike the Closed and Updated
handlers there is NO `status == OPEN` condition in the `select`
(indexer.py lines 397-403). A missing position or market is a skip.
`calculate_liquidation_price` raises `ValueError` when the stored leverage
is `<= 0`, modelled as `Except.error`. -/
def index_position_liquidated (s : Store) (e : PositionLiquidatedEvent) :
    Except String Store :=
  match s.positions.find? (fun p => decide (p.position_id = e.position_id)) with
  | none => .ok s
  | some position =>
    match s.markets.find? (fun m => decide (m.market_id = e.market_id)) with
    | none => .ok s
    | some market =>
      let liquidation_fee := position.collateral * market.liquidation_fee_rate
      let liquidate : Position → Position := fun p =>
        { p with status := .statusLiquidated
                 realized_pnl := some e.pnl
                 closed_at := some ((e.timestamp : ℚ) / 1000)
                 close_transaction_hash := some e.txDigest }
      let positions := updateFirst
        (fun p => decide (p.position_id = e.position_id)) liquidate s.positions
      let s₁ := { s with positions := positions }
      match Utils.calculate_liquidation_price position.entry_price
          position.leverage (decide (position.side = Side.long))
          market.maintenance_margin_rate with
      | .error msg => .error msg
      | .ok liquidation_price =>
        let record : LiquidationRecord :=
          { position_id := e.position_id
            market_id := e.market_id
            user_address := e.owner.toLower
            liquidator_address := e.liquidator.toLower
            liquidation_price := liquidation_price
            collateral := e.collateral
            liquidation_fee := liquidation_fee
            transaction_hash := e.txDigest
            block_number := 1 }
        let s₂ := { s₁ with liquidations := s₁.liquidations ++ [record] }
        .ok (update_market_stats s₂ position.market_id position.size
          (decide (position.side = Side.long)) false)

/-- All `PositionOpened` events of a sub-batch, in event order. -/
def index_position_opened_batch (s : Store) (events : List PositionOpenedEvent) :
    Store :=
  events.foldl index_position_opened s

/-- All `PositionClosed` events of a sub-batch, in event order. -/
def index_position_closed_batch (s : Store) (events : List PositionClosedEvent) :
    Store :=
  events.foldl index_position_closed s

/-- All `PositionUpdated` events of a sub-batch, in event order. -/
def index_position_updated_batch (s : Store) (events : List PositionUpdatedEvent) :
    Store :=
  events.foldl index_position_updated s

/-- All `PositionLiquidated` events of a sub-batch; the first raised
exception aborts the remainder. -/
def index_liquidations_batch : Store → List PositionLiquidatedEvent →
    Except String Store
  | s, [] => .ok s
  | s, e :: es =>
    match index_position_liquidated s e with
    | .error msg => .error msg
    | .ok s' => index_liquidations_batch s' es

/-- The four event lists the source returns for one checkpoint range. -/
structure EventBatch where
  opened : List PositionOpenedEvent
  closed : List PositionClosedEvent
  updated : List PositionUpdatedEvent
  liquidated : List PositionLiquidatedEvent
deriving DecidableEq, Repr

/-- Source `BlockchainIndexer._process_checkpoint_range` (indexer.py lines
121-139): the four categories are processed in the order Opened, Closed,
Liquidated, Updated. -/
def process_checkpoint_range (s : Store) (b : EventBatch) : Except String Store :=
  let s₁ := index_position_opened_batch s b.opened
  let s₂ := index_position_closed_batch s₁ b.closed
  match index_liquidations_batch s₂ b.liquidated with
  | .error msg => .error msg
  | .ok s₃ => .ok (index_position_updated_batch s₃ b.updated)

/-- Modelled from the spec: the processing order the specification states
for `_process_checkpoint_range` — Opened, Closed, Updated, Liquidated —
defined only to be compared against the order the code actually uses. -/
def process_checkpoint_range_claimed_order (s : Store) (b : EventBatch) :
    Except String Store :=
  let s₁ := index_position_opened_batch s b.opened
  let s₂ := index_position_closed_batch s₁ b.closed
  let s₃ := index_position_updated_batch s₂ b.updated
  index_liquidations_batch s₃ b.liquidated

/-- The four `query_events` fetches of one sub-batch.  Each network call can
fail (the spec's TransientSourceError); `Except.error` marks a raised
fetch. -/
structure SubBatchFetch where
  opened : Except Unit (List PositionOpenedEvent)
  closed : Except Unit (List PositionClosedEvent)
  liquidated : Except Unit (List PositionLiquidatedEvent)
  updated : Except Unit (List PositionUpdatedEvent)
deriving Repr

/-- One iteration of the sub-batch loop in `BlockchainIndexer._sync_events`
(indexer.py lines 102-119), returning the COMMITTED store after the
`try`/`except`-rollback block.  Mutations are applied to the session's
pending state; `db.rollback()` restores the last committed state.  The
crucial detail is the `await db.commit()` at the end of
`_index_liquidations` (indexer.py line 472): once the Opened, Closed and
Liquidated events have been applied, that intermediate state is committed
before the Updated events are fetched and before the checkpoint is
advanced to `to_checkpoint`. -/
def run_sub_batch (committed : Store) (b : SubBatchFetch) (to_checkpoint : ℤ) :
    Store :=
  match b.opened with
  | .error _ => committed
  | .ok opened_events =>
  let s₁ := index_position_opened_batch committed opened_events
  match b.closed with
  | .error _ => committed
  | .ok closed_events =>
  let s₂ := index_position_closed_batch s₁ closed_events
  match b.liquidated with
  | .error _ => committed
  | .ok liquidated_events =>
  match index_liquidations_batch s₂ liquidated_events with
  | .error _ => committed
  | .ok s₃ =>
  match b.updated with
  | .error _ => s₃
  | .ok updated_events =>
  let s₄ := index_position_updated_batch s₃ updated_events
  { s₄ with last_synced_block := to_checkpoint }

/-- Whether the sub-batch iteration raises an exception (a failed fetch or
a `ValueError` while applying a Liquidated event), i.e. whether
`_sync_events` reaches its `except` branch for this sub-batch. -/
def sub_batch_raises (committed : Store) (b : SubBatchFetch) : Bool :=
  match b.opened with
  | .error _ => true
  | .ok opened_events =>
  let s₁ := index_position_opened_batch committed opened_events
  match b.closed with
  | .error _ => true
  | .ok closed_events =>
  let s₂ := index_position_closed_batch s₁ closed_events
  match b.liquidated with
  | .error _ => true
  | .ok liquidated_events =>
  match index_liquidations_batch s₂ liquidated_events with
  | .error _ => true
  | .ok _ =>
  match b.updated with
  | .error _ => true
  | .ok _ => false

end BlockchainIndexer

/-- A Pyth price sample (`app/schemas/common.py::PriceData`). -/
structure PriceData where
  price_id : String
  price : ℚ
  confidence : ℚ
  expo : ℤ
  publish_time : ℤ
deriving DecidableEq, Repr

/-- Source `PriceData.normalized_price`: the raw price with its exponent applied. -/
def PriceData.normalized_price (pd : PriceData) : ℚ :=
  pd.price * (10 : ℚ) ^ pd.expo

/-- Source `PriceData.age_seconds` relative to the current wall clock `now`
(unix seconds). -/
def PriceData.age_seconds (pd : PriceData) (now : ℤ) : ℤ :=
  now - pd.publish_time

namespace PythOracleService

/-- Source `PythOracleService.is_price_fresh`: the sample is fresh when its age is
at most `max_age_seconds`. -/
def is_price_fresh (pd : PriceData) (now : ℤ) (max_age_seconds : ℤ) : Bool :=
  decide (pd.age_seconds now ≤ max_age_seconds)

/-- Source `PythOracleService.is_price_confident`: false when the price is 0,
otherwise requires `confidence / |price|` at most `max_confidence_ratio`
(default 1%). -/
def is_price_confident (pd : PriceData) (max_confidence_ratio : ℚ) : Bool :=
  if pd.price = 0 then false
  else decide (pd.confidence / |pd.price| ≤ max_confidence_ratio)

end PythOracleService

/-- Source `app/schemas/position.py::LiquidationCandidate` — ephemeral scan
output, never persisted. -/
structure LiquidationCandidate where
  position_id : String
  user_address : String
  market_id : String
  current_price : ℚ
  health_factor : ℚ
  liquidation_price : ℚ
  collateral : ℚ
  potential_reward : ℚ
deriving DecidableEq, Repr

namespace LiquidationBot

/-- The joined rows of the scan query in
`LiquidationBot._find_liquidation_candidates`: every OPEN position paired
with its market (inner join on `market_id`; a position whose market row is
missing yields no row). -/
def open_positions_with_markets (s : Store) : List (Position × Market) :=
  s.positions.filterMap (fun p =>
    if p.status = PositionStatus.statusOpen then
      (s.markets.find? (fun m => decide (m.market_id = p.market_id))).map
        (fun m => (p, m))
    else none)

/-- The per-position loop of `_find_liquidation_candidates` (liquidation.py
lines 127-207): skip a position on cooldown, with no price sample, with a
stale sample (age > 30s) or a low-confidence sample; otherwise evaluate the
health factor and, when it is at most `min_health_factor`, emit a
candidate.  `mock_calculate_liquidation_price` raising (stored leverage 0)
aborts the scan, as the uncaught `DivisionByZero` would. -/
def scan_positions (prices : String → Option PriceData) (cooldown : List String)
    (now : ℤ) : List (Position × Market) →
    Except String (List LiquidationCandidate)
  | [] => .ok []
  | (position, market) :: rest =>
    if position.position_id ∈ cooldown then
      scan_positions prices cooldown now rest
    else
      match prices market.pyth_price_id with
      | none => scan_positions prices cooldown now rest
      | some price_data =>
        if ¬ PythOracleService.is_price_fresh price_data now 30 then
          scan_positions prices cooldown now rest
        else if ¬ PythOracleService.is_price_confident price_data (1 / 100) then
          scan_positions prices cooldown now rest
        else
          let current_price := price_data.normalized_price
          let health_factor := BlockchainService.calculate_health_factor
            position.collateral position.size position.entry_price current_price
            (decide (position.side = Side.long)) market.maintenance_margin_rate
            position.accumulated_funding
          if health_factor ≤ Settings.min_health_factor then
            match BlockchainService.mock_calculate_liquidation_price
                position.entry_price position.leverage
                (decide (position.side = Side.long))
                market.maintenance_margin_rate with
            | .error msg => .error msg
            | .ok liquidation_price =>
              let liquidation_fee := position.collateral * market.liquidation_fee_rate
              let potential_reward := liquidation_fee * Settings.liquidation_reward_rate
              let candidate : LiquidationCandidate :=
                { position_id := position.position_id
                  user_address := position.user_address
                  market_id := position.market_id
                  current_price := current_price
                  health_factor := health_factor
                  liquidation_price := liquidation_price
                  collateral := position.collateral
                  potential_reward := potential_reward }
              match scan_positions prices cooldown now rest with
              | .error msg => .error msg
              | .ok candidates => .ok (candidate :: candidates)
          else
            scan_positions prices cooldown now rest

/-- Source `LiquidationBot._find_liquidation_candidates`: run the scan over the
joined OPEN positions and sort the candidates descending by
`potential_reward` (stable sort, as Python's `list.sort`). -/
def find_liquidation_candidates (s : Store) (prices : String → Option PriceData)
    (cooldown : List String) (now : ℤ) :
    Except String (List LiquidationCandidate) :=
  match scan_positions prices cooldown now (open_positions_with_markets s) with
  | .error msg => .error msg
  | .ok candidates =>
    .ok (candidates.mergeSort
      (fun a b => decide (b.potential_reward ≤ a.potential_reward)))

end LiquidationBot

/-- A market row used as a concrete fixture. -/
def fixMarket : Market :=
  { market_id := "BTC-PERP"
    symbol := "BTC"
    pyth_price_id := "feed-btc"
    maintenance_margin_rate := 5/100
    liquidation_fee_rate := 1/100
    max_funding_rate := 1/1000
    total_long_positions := 5
    total_short_positions := 0
    current_funding_rate := 0 }

/-- An OPEN position with zero collateral, hence stored leverage 0. -/
def fixZeroLeveragePosition : Position :=
  { position_id := "pos-0"
    user_address := "0xabc"
    market_id := "BTC-PERP"
    side := .long
    size := 5
    collateral := 0
    leverage := 0
    entry_price := 50000
    exit_price := none
    status := .statusOpen
    realized_pnl := none
    collateral_returned := none
    accumulated_funding := 0
    transaction_hash := "tx-open"
    close_transaction_hash := none
    created_at := 0
    closed_at := none
    updated_at := none }

/-- Store holding the zero-leverage position and its market. -/
def fixZeroLeverageStore : Store :=
  { positions := [fixZeroLeveragePosition]
    markets := [fixMarket]
    liquidations := []
    last_synced_block := 100 }

/-- A Liquidated event for the zero-leverage position. -/
def fixLiqEventZero : PositionLiquidatedEvent :=
  { position_id := "pos-0"
    owner := "0xabc"
    liquidator := "0xliq"
    market_id := "BTC-PERP"
    size := 5
    collateral := 0
    pnl := -1
    timestamp := 1700000000000
    txDigest := "tx-liq" }

/-- A market fixture with enough OI on both sides for exact flips and
exact same-side deltas. -/
def fixMarket12 : Market :=
  { fixMarket with total_long_positions := 12, total_short_positions := 20 }

/-- A CLOSED position (already finalized) with ordinary leverage. -/
def fixClosedPosition : Position :=
  { position_id := "pos-c"
    user_address := "0xabc"
    market_id := "BTC-PERP"
    side := .long
    size := 2
    collateral := 100
    leverage := 5
    entry_price := 50000
    exit_price := some 49000
    status := .statusClosed
    realized_pnl := some (-40)
    collateral_returned := some 60
    accumulated_funding := 0
    transaction_hash := "tx-open-c"
    close_transaction_hash := some "tx-close-c"
    created_at := 0
    closed_at := some 1
    updated_at := none }

/-- Store with only the CLOSED position and its market: no OPEN position
with id "pos-c" exists. -/
def fixClosedStore : Store :=
  { positions := [fixClosedPosition]
    markets := [fixMarket]
    liquidations := []
    last_synced_block := 100 }

/-- A Liquidated event naming the CLOSED position. -/
def fixLiqEventClosed : PositionLiquidatedEvent :=
  { position_id := "pos-c"
    owner := "0xabc"
    liquidator := "0xliq"
    market_id := "BTC-PERP"
    size := 2
    collateral := 100
    pnl := -100
    timestamp := 1700000000000
    txDigest := "tx-liq-c" }

/-- An OPEN position with ordinary leverage, used by the sub-batch
fixtures. -/
def fixOpenPosition : Position :=
  { fixClosedPosition with
      position_id := "pos-1"
      size := 10
      leverage := 5
      status := .statusOpen
      exit_price := none
      realized_pnl := none
      collateral_returned := none
      close_transaction_hash := none
      closed_at := none }

/-- Store with one OPEN position and a market whose long total matches the
position's size. -/
def fixC1Store : Store :=
  { positions := [fixOpenPosition]
    markets := [{ fixMarket with total_long_positions := 10 }]
    liquidations := []
    last_synced_block := 100 }

/-- A Liquidated event naming the OPEN position. -/
def fixLiqEventOpen : PositionLiquidatedEvent :=
  { fixLiqEventClosed with position_id := "pos-1", size := 10, txDigest := "tx-liq-1" }

/-- Sub-batch input whose Liquidated list applies cleanly but whose
Updated fetch raises (a transient source failure). -/
def fixC1Fetch : BlockchainIndexer.SubBatchFetch :=
  { opened := .ok []
    closed := .ok []
    liquidated := .ok [fixLiqEventOpen]
    updated := .error () }

/-- An Updated event halving the OPEN position's size, same side. -/
def fixUpdEvent : PositionUpdatedEvent :=
  { user := "0xabc"
    market_id := "BTC-PERP"
    position_id := "pos-1"
    new_size := 5
    new_collateral := 100
    new_entry_price := 50000
    direction := 0
    timestamp := 1700000000000
    txDigest := "tx-upd-1" }

/-- A sub-batch carrying both an Updated and a Liquidated event for the
same position: the category processing order is observable on it. -/
def fixC3Batch : BlockchainIndexer.EventBatch :=
  { opened := []
    closed := []
    updated := [fixUpdEvent]
    liquidated := [fixLiqEventOpen] }

/-- A fresh, fully confident price sample at 40000 for the fixture market. -/
def fixPriceData : PriceData :=
  { price_id := "feed-btc"
    price := 40000
    confidence := 0
    expo := 0
    publish_time := 1000 }

/-- Price map exposing only the fixture market's feed. -/
def fixPrices : String → Option PriceData :=
  fun fid => if fid = "feed-btc" then some fixPriceData else none

/-- The candidate the scan produces for the fixture store at price 40000:
health factor (100 - 99900 - 0) / 20000 = -999/200 ≤ 1. -/
def fixCandidate : LiquidationCandidate :=
  { position_id := "pos-1"
    user_address := "0xabc"
    market_id := "BTC-PERP"
    current_price := 40000
    health_factor := -999/200
    liquidation_price := 42500
    collateral := 100
    potential_reward := 1/20 }

end Tumo

deriving instance DecidableEq for Except

namespace Tumo

/-- C5: `BlockchainService.calculate_health_factor` returns
`(collateral + pnl - accrued) / (size * current * mmr)` with
`pnl = size*(current-entry)` for a long and its negation for a short;
when the maintenance margin is 0 it returns the sentinel 999999, which is
strictly above the default liquidation threshold `min_health_factor = 1`;
and at (1000, 1, 50000, 51000, long, 0.05, 0) it returns 2000/2550. -/
theorem C5_health_factor (collateral size entry current : ℚ) (is_long : Bool)
    (mmr accrued : ℚ) :
    (size * current * mmr ≠ 0 →
      BlockchainService.calculate_health_factor collateral size entry current
          is_long mmr accrued =
        (collateral +
          (if is_long then size * (current - entry) else -(size * (current - entry)))
          - accrued) / (size * current * mmr)) ∧
    (size * current * mmr = 0 →
      BlockchainService.calculate_health_factor collateral size entry current
          is_long mmr accrued = 999999 ∧
      Settings.min_health_factor < 999999) ∧
    BlockchainService.calculate_health_factor 1000 1 50000 51000 true (5/100) 0
      = 2000 / 2550 := by
  refine ⟨fun h => ?_, fun h => ⟨?_, by norm_num [Settings.min_health_factor]⟩,
    by with_unfolding_all rfl⟩
  · simp only [BlockchainService.calculate_health_factor]
    rw [if_neg h]
    cases is_long <;> ring_nf
  · simp only [BlockchainService.calculate_health_factor]
    rw [if_pos h]

/-- Witness for C5 at the spec's concrete example (non-zero margin). -/
theorem C5_health_factor_witness :
    BlockchainService.calculate_health_factor 1000 1 50000 51000 true (5/100) 0
      = (1000 + (if true then 1 * ((51000 : ℚ) - 50000) else -(1 * (51000 - 50000))) - 0)
        / (1 * 51000 * (5/100)) :=
  (C5_health_factor 1000 1 50000 51000 true (5/100) 0).1 (by norm_num)

/-- C6: the funding-rate computation returns 0 when total OI is 0 and the
clamped imbalance-proportional rate otherwise, and the result always lies
in `[-max_rate, max_rate]` for non-negative OI and cap. -/
theorem C6_funding_rate (long_oi short_oi max_rate : ℚ) :
    (long_oi + short_oi = 0 →
      FundingRateService.calculate_funding_rate long_oi short_oi max_rate = 0) ∧
    (long_oi + short_oi ≠ 0 →
      FundingRateService.calculate_funding_rate long_oi short_oi max_rate =
        max (min ((long_oi - short_oi) / (long_oi + short_oi) * max_rate) max_rate)
          (-max_rate)) ∧
    (0 ≤ long_oi → 0 ≤ short_oi → 0 ≤ max_rate →
      -max_rate ≤ FundingRateService.calculate_funding_rate long_oi short_oi max_rate ∧
      FundingRateService.calculate_funding_rate long_oi short_oi max_rate ≤ max_rate) := by
  refine ⟨fun h => ?_, fun h => ?_, fun _ _ hm => ?_⟩
  · simp only [FundingRateService.calculate_funding_rate]
    rw [if_pos h]
  · simp only [FundingRateService.calculate_funding_rate]
    rw [if_neg h]
  · simp only [FundingRateService.calculate_funding_rate]
    by_cases h : long_oi + short_oi = 0
    · rw [if_pos h]
      constructor <;> linarith
    · rw [if_neg h]
      refine ⟨le_max_right _ _, max_le (min_le_right _ _) (by linarith)⟩

/-- Witness for C6 at long OI 3, short OI 1, cap 1/1000. -/
theorem C6_funding_rate_witness :
    (3 : ℚ) + 1 ≠ 0 ∧
    FundingRateService.calculate_funding_rate 3 1 (1/1000) =
      max (min (((3 : ℚ) - 1) / (3 + 1) * (1/1000)) (1/1000)) (-(1/1000)) ∧
    -(1/1000 : ℚ) ≤ FundingRateService.calculate_funding_rate 3 1 (1/1000) ∧
    FundingRateService.calculate_funding_rate 3 1 (1/1000) ≤ 1/1000 :=
  ⟨by norm_num, (C6_funding_rate 3 1 (1/1000)).2.1 (by norm_num),
    (C6_funding_rate 3 1 (1/1000)).2.2 (by norm_num) (by norm_num) (by norm_num)⟩

/-- C9 counterexample: the two health-factor implementations disagree at
collateral 1000, size 1, entry 50000, current 51000, long, mmr 0.05,
funding 0 (claimed inputs satisfy entry > 0 and size > 0). -/
theorem C9_counterexample :
    Utils.calculate_health_factor 1000 1 50000 51000 true (5/100) 0 ≠
    BlockchainService.calculate_health_factor 1000 1 50000 51000 true (5/100) 0 := by
  with_unfolding_all decide

/-- C9 amended: the two implementations are extensionally different — for
`entry > 0` the utils version computes pnl relative to the entry price and
a maintenance margin without the current price
(`(collateral + size*(±(current-entry)/entry) - funding) / (size*mmr)`),
while the service version computes
`(collateral + size*(±(current-entry)) - funding) / (size*current*mmr)`;
at the concrete point (1000, 1, 50000, 51000, long, 1/20, 0) they return
100002/5 and 40/51 respectively. -/
theorem C9_amended (collateral size entry current : ℚ) (is_long : Bool)
    (mmr accrued : ℚ) :
    (0 < entry → 0 < size * mmr →
      Utils.calculate_health_factor collateral size entry current is_long mmr accrued
        = (collateral +
            size * (if is_long then (current - entry) / entry
                    else -((current - entry) / entry)) - accrued) / (size * mmr)) ∧
    (size * current * mmr ≠ 0 →
      BlockchainService.calculate_health_factor collateral size entry current
          is_long mmr accrued =
        (collateral +
          (if is_long then size * (current - entry) else -(size * (current - entry)))
          - accrued) / (size * current * mmr)) ∧
    Utils.calculate_health_factor 1000 1 50000 51000 true (5/100) 0 = 100002 / 5 ∧
    BlockchainService.calculate_health_factor 1000 1 50000 51000 true (5/100) 0
      = 40 / 51 := by
  refine ⟨fun he hm => ?_, fun h => ?_, by with_unfolding_all rfl,
    by with_unfolding_all rfl⟩
  · simp only [Utils.calculate_health_factor]
    rw [if_neg (by linarith), if_neg (by linarith)]
  · simp only [BlockchainService.calculate_health_factor]
    rw [if_neg h]
    cases is_long <;> ring_nf

/-- Witness for C9's amended claim at entry 50000, size 1, mmr 1/20. -/
theorem C9_amended_witness :
    Utils.calculate_health_factor 1000 1 50000 51000 true (5/100) 0
      = (1000 + 1 * (if true then ((51000 : ℚ) - 50000) / 50000
                     else -(((51000 : ℚ) - 50000) / 50000)) - 0) / (1 * (5/100)) :=
  (C9_amended 1000 1 50000 51000 true (5/100) 0).1 (by norm_num) (by norm_num)

/-- Source `update_market_stats` only touches market rows. -/
theorem update_market_stats_positions (s : Store) (market_id : String) (size : ℚ)
    (is_long add : Bool) :
    (BlockchainIndexer.update_market_stats s market_id size is_long add).positions
      = s.positions := rfl

/-- C10: `Utils.calculate_liquidation_price` raises `ValueError` exactly
when `leverage ≤ 0` and returns a non-negative price for positive
leverage; the indexer stores `leverage = 0` for an Opened event with zero
collateral, and applying a Liquidated event to a stored position with
leverage 0 (position and market present) raises the `ValueError` — so the
error branch is reachable from the ingestion path. -/
theorem C10_liquidation_price (entry leverage : ℚ) (is_long : Bool) (mmr : ℚ) :
    ((∃ msg, Utils.calculate_liquidation_price entry leverage is_long mmr
        = .error msg) ↔ leverage ≤ 0) ∧
    (∀ v, Utils.calculate_liquidation_price entry leverage is_long mmr = .ok v →
      0 ≤ v) ∧
    (∀ (s : Store) (e : PositionOpenedEvent), e.collateral = 0 →
      s.positions.find? (fun p => decide (p.position_id = e.position_id)) = none →
      ∃ p ∈ (BlockchainIndexer.index_position_opened s e).positions,
        p.position_id = e.position_id ∧ p.leverage = 0) ∧
    (∀ (s : Store) (e : PositionLiquidatedEvent) (position : Position)
        (market : Market),
      s.positions.find? (fun p => decide (p.position_id = e.position_id))
        = some position →
      s.markets.find? (fun m => decide (m.market_id = e.market_id)) = some market →
      position.leverage = 0 →
      BlockchainIndexer.index_position_liquidated s e
        = .error "leverage must be greater than 0") := by
  refine ⟨⟨fun hmsg => ?_, fun h => ?_⟩, fun v hv => ?_,
    fun s e hc hf => ?_, fun s e position market hp hm hl => ?_⟩
  · obtain ⟨msg, hmsg⟩ := hmsg
    by_contra hneg
    simp only [Utils.calculate_liquidation_price, if_neg hneg] at hmsg
    exact absurd hmsg (by simp)
  · exact ⟨"leverage must be greater than 0",
      by simp only [Utils.calculate_liquidation_price, if_pos h]⟩
  · simp only [Utils.calculate_liquidation_price] at hv
    by_cases h : leverage ≤ 0
    · rw [if_pos h] at hv
      exact absurd hv (by simp)
    · rw [if_neg h] at hv
      cases hv
      exact le_max_right _ _
  · simp only [BlockchainIndexer.index_position_opened, hf,
      update_market_stats_positions]
    refine ⟨_, List.mem_append_right _ (List.mem_singleton.mpr rfl), rfl, ?_⟩
    simp [hc]
  · simp only [BlockchainIndexer.index_position_liquidated, hp, hm,
      Utils.calculate_liquidation_price, hl]
    norm_num

/-- Witness for C10: the `ValueError` fires at leverage 0, and the
Liquidated handler raises on the concrete zero-leverage store. -/
theorem C10_liquidation_price_witness :
    (∃ msg, Utils.calculate_liquidation_price 50000 0 true (5/100) = .error msg) ∧
    BlockchainIndexer.index_position_liquidated fixZeroLeverageStore fixLiqEventZero
      = .error "leverage must be greater than 0" :=
  ⟨(C10_liquidation_price 50000 0 true (5/100)).1.mpr (by norm_num),
    (C10_liquidation_price 50000 0 true (5/100)).2.2.2 fixZeroLeverageStore
      fixLiqEventZero fixZeroLeveragePosition fixMarket
      (by with_unfolding_all rfl) (by with_unfolding_all rfl) rfl⟩

/-- C4 counterexample: the claim that a side flip subtracts the FULL old
size from the old side fails when the stored total is smaller than the old
size — with `total_long_positions = 5` and a LONG(10) → SHORT(4) update,
the long total is clamped to 0, a decrease of 5, not 10. -/
theorem C4_counterexample :
    (BlockchainIndexer.apply_position_update_to_market fixMarket 10 4 true
        false).total_long_positions ≠ fixMarket.total_long_positions - 10 := by
  with_unfolding_all decide

/-- C4 amended: on a side flip, in either direction, the old side's total
loses the full old size clamped at zero (exactly the full old size
whenever that total is at least the old size) and the new side's total
gains the full new size — never a cross-side delta; on a same-side
update, on either side, the update is a no-op when the size delta is zero
and otherwise applies the delta `new_size - old_size` to that side's
total, clamped at zero (exactly the delta whenever the result is
non-negative), while the other side's total is untouched. -/
theorem C4_amended (m : Market) (old_size new_size : ℚ) :
    ((BlockchainIndexer.apply_position_update_to_market m old_size new_size true
        false).total_long_positions = max 0 (m.total_long_positions - old_size) ∧
     (BlockchainIndexer.apply_position_update_to_market m old_size new_size true
        false).total_short_positions = m.total_short_positions + new_size) ∧
    ((BlockchainIndexer.apply_position_update_to_market m old_size new_size false
        true).total_short_positions = max 0 (m.total_short_positions - old_size) ∧
     (BlockchainIndexer.apply_position_update_to_market m old_size new_size false
        true).total_long_positions = m.total_long_positions + new_size) ∧
    ((old_size ≤ m.total_long_positions →
      (BlockchainIndexer.apply_position_update_to_market m old_size new_size true
        false).total_long_positions = m.total_long_positions - old_size) ∧
     (old_size ≤ m.total_short_positions →
      (BlockchainIndexer.apply_position_update_to_market m old_size new_size false
        true).total_short_positions = m.total_short_positions - old_size)) ∧
    ((BlockchainIndexer.apply_position_update_to_market m old_size new_size true
        true).total_short_positions = m.total_short_positions ∧
     (BlockchainIndexer.apply_position_update_to_market m old_size new_size true
        true).total_long_positions =
       (if new_size - old_size = 0 then m.total_long_positions
        else max 0 (m.total_long_positions + (new_size - old_size))) ∧
     (0 ≤ m.total_long_positions + (new_size - old_size) →
      (BlockchainIndexer.apply_position_update_to_market m old_size new_size true
        true).total_long_positions
        = m.total_long_positions + (new_size - old_size))) ∧
    ((BlockchainIndexer.apply_position_update_to_market m old_size new_size false
        false).total_long_positions = m.total_long_positions ∧
     (BlockchainIndexer.apply_position_update_to_market m old_size new_size false
        false).total_short_positions =
       (if new_size - old_size = 0 then m.total_short_positions
        else max 0 (m.total_short_positions + (new_size - old_size))) ∧
     (0 ≤ m.total_short_positions + (new_size - old_size) →
      (BlockchainIndexer.apply_position_update_to_market m old_size new_size false
        false).total_short_positions
        = m.total_short_positions + (new_size - old_size))) := by
  refine ⟨⟨?_, ?_⟩, ⟨?_, ?_⟩, ⟨fun h => ?_, fun h => ?_⟩, ⟨?_, ?_, fun h => ?_⟩,
    ⟨?_, ?_, fun h => ?_⟩⟩ <;>
    simp only [BlockchainIndexer.apply_position_update_to_market]
  · norm_num
  · norm_num
  · norm_num
  · norm_num
  · norm_num
    linarith [max_eq_right (by linarith : (0:ℚ) ≤ m.total_long_positions - old_size)]
  · norm_num
    linarith [max_eq_right (by linarith : (0:ℚ) ≤ m.total_short_positions - old_size)]
  · by_cases hd : new_size - old_size = 0 <;> simp [hd]
  · by_cases hd : new_size - old_size = 0 <;> simp [hd]
  · by_cases hd : new_size - old_size = 0
    · simp only [if_pos hd]
      norm_num
      linarith
    · simp only [if_neg hd]
      norm_num
      exact h
  · by_cases hd : new_size - old_size = 0 <;> simp [hd]
  · by_cases hd : new_size - old_size = 0 <;> simp [hd]
  · by_cases hd : new_size - old_size = 0
    · simp only [if_pos hd]
      norm_num
      linarith
    · simp only [if_neg hd]
      norm_num
      exact h

/-- Witness for C4's amended claim on a market with long total 12 and
short total 20: LONG(10) → SHORT(4) gives long 2 (a decrease of exactly
10) and short 24 (an increase of exactly 4); SHORT(10) → LONG(4) gives
short 10 exactly; and same-side updates with delta 4 − 10 = −6 land
exactly at 6 (long) and 14 (short). -/
theorem C4_amended_witness :
    ((10 : ℚ) ≤ fixMarket12.total_long_positions ∧
     (10 : ℚ) ≤ fixMarket12.total_short_positions ∧
     (0 : ℚ) ≤ fixMarket12.total_long_positions + (4 - 10) ∧
     (0 : ℚ) ≤ fixMarket12.total_short_positions + (4 - 10)) ∧
    (BlockchainIndexer.apply_position_update_to_market fixMarket12 10 4 true
      false).total_long_positions = fixMarket12.total_long_positions - 10 ∧
    (BlockchainIndexer.apply_position_update_to_market fixMarket12 10 4 true
      false).total_short_positions = fixMarket12.total_short_positions + 4 ∧
    (BlockchainIndexer.apply_position_update_to_market fixMarket12 10 4 false
      true).total_short_positions = fixMarket12.total_short_positions - 10 ∧
    (BlockchainIndexer.apply_position_update_to_market fixMarket12 10 4 true
      true).total_long_positions = fixMarket12.total_long_positions + (4 - 10) ∧
    (BlockchainIndexer.apply_position_update_to_market fixMarket12 10 4 false
      false).total_short_positions
      = fixMarket12.total_short_positions + (4 - 10) :=
  ⟨⟨by norm_num [fixMarket12, fixMarket], by norm_num [fixMarket12, fixMarket],
    by norm_num [fixMarket12, fixMarket], by norm_num [fixMarket12, fixMarket]⟩,
   (C4_amended fixMarket12 10 4).2.2.1.1 (by norm_num [fixMarket12, fixMarket]),
   (C4_amended fixMarket12 10 4).1.2,
   (C4_amended fixMarket12 10 4).2.2.1.2 (by norm_num [fixMarket12, fixMarket]),
   (C4_amended fixMarket12 10 4).2.2.2.1.2.2 (by norm_num [fixMarket12, fixMarket]),
   (C4_amended fixMarket12 10 4).2.2.2.2.2.2 (by norm_num [fixMarket12, fixMarket])⟩

/-- C8: applying the same Opened event twice is idempotent — the second
application is a no-op (so the whole store, market totals included, equals
the state after one application), and starting from a store with no row
for that `position_id`, exactly one row with it exists afterwards. -/
theorem C8_opened_idempotent (s : Store) (e : PositionOpenedEvent) :
    BlockchainIndexer.index_position_opened
        (BlockchainIndexer.index_position_opened s e) e
      = BlockchainIndexer.index_position_opened s e ∧
    (s.positions.countP (fun p => decide (p.position_id = e.position_id)) = 0 →
      (BlockchainIndexer.index_position_opened
          (BlockchainIndexer.index_position_opened s e) e).positions.countP
        (fun p => decide (p.position_id = e.position_id)) = 1) := by
  cases h : s.positions.find? (fun p => decide (p.position_id = e.position_id)) with
  | some x =>
    have h1 : BlockchainIndexer.index_position_opened s e = s := by
      simp only [BlockchainIndexer.index_position_opened, h]
    refine ⟨by rw [h1, h1], fun h0 => ?_⟩
    exact absurd (List.find?_some h) ((List.countP_eq_zero.mp h0) x
      (List.mem_of_find?_eq_some h))
  | none =>
    have hidem : BlockchainIndexer.index_position_opened
        (BlockchainIndexer.index_position_opened s e) e
      = BlockchainIndexer.index_position_opened s e := by
      conv_lhs => rw [BlockchainIndexer.index_position_opened]
      simp only [BlockchainIndexer.index_position_opened, h,
        update_market_stats_positions, List.find?_append, h, Option.none_or,
        List.find?_cons]
      simp
    refine ⟨hidem, fun h0 => ?_⟩
    rw [hidem]
    simp only [BlockchainIndexer.index_position_opened, h,
      update_market_stats_positions, List.countP_append, h0]
    simp

/-- Witness for C8 on a store that has no row for the event's id. -/
theorem C8_opened_idempotent_witness :
    ((Store.mk [] [fixMarket] [] 100).positions.countP
      (fun p => decide (p.position_id = "pos-9")) = 0) ∧
    (BlockchainIndexer.index_position_opened
        (BlockchainIndexer.index_position_opened (Store.mk [] [fixMarket] [] 100)
          (PositionOpenedEvent.mk "pos-9" "0xabc" "BTC-PERP" 2 100 50000 0
            1700000000000 "tx9"))
        (PositionOpenedEvent.mk "pos-9" "0xabc" "BTC-PERP" 2 100 50000 0
          1700000000000 "tx9")).positions.countP
      (fun p => decide (p.position_id = "pos-9")) = 1 :=
  ⟨rfl, (C8_opened_idempotent (Store.mk [] [fixMarket] [] 100)
    (PositionOpenedEvent.mk "pos-9" "0xabc" "BTC-PERP" 2 100 50000 0
      1700000000000 "tx9")).2 rfl⟩

/-- C2 fails on the code for Liquidated events: the liquidation handler's
position look-up has no OPEN-status filter, so applying a Liquidated event
whose position exists only in status CLOSED mutates the store (the CLOSED
position transitions to LIQUIDATED, violating status monotonicity) instead
of being skipped. -/
theorem C2_liquidated_closed_position :
    (BlockchainIndexer.index_position_liquidated fixClosedStore
      fixLiqEventClosed).toOption.isSome = true ∧
    (BlockchainIndexer.index_position_liquidated fixClosedStore
      fixLiqEventClosed).toOption ≠ some fixClosedStore ∧
    ((BlockchainIndexer.index_position_liquidated fixClosedStore
        fixLiqEventClosed).toOption.bind
      (fun s₂ => (s₂.positions.find? (fun p => decide (p.position_id = "pos-c"))).map
        Position.status)) = some PositionStatus.statusLiquidated := by
  refine ⟨by with_unfolding_all rfl, fun heq => ?_, by with_unfolding_all rfl⟩
  have hlen : (BlockchainIndexer.index_position_liquidated fixClosedStore
      fixLiqEventClosed).toOption.map (fun s₂ => s₂.liquidations.length)
      = some 1 := by with_unfolding_all rfl
  rw [heq] at hlen
  simp [fixClosedStore] at hlen

/-- C1 fails on the code: an exception raised after the intermediate
`db.commit()` inside `_index_liquidations` (indexer.py:472) leaves the
sub-batch HALF-committed — the liquidation mutations persist while the
checkpoint stays at its old value, so the store is not "exactly as it was
before the sub-batch began". -/
theorem C1_sub_batch_not_atomic :
    BlockchainIndexer.sub_batch_raises fixC1Store fixC1Fetch = true ∧
    BlockchainIndexer.run_sub_batch fixC1Store fixC1Fetch 200 ≠ fixC1Store ∧
    (BlockchainIndexer.run_sub_batch fixC1Store fixC1Fetch 200).last_synced_block
      = fixC1Store.last_synced_block ∧
    ((BlockchainIndexer.run_sub_batch fixC1Store fixC1Fetch
        200).positions.find? (fun p => decide (p.position_id = "pos-1"))).map
      Position.status = some PositionStatus.statusLiquidated := by
  refine ⟨rfl, fun heq => ?_, by with_unfolding_all rfl, by with_unfolding_all rfl⟩
  have hlen : (BlockchainIndexer.run_sub_batch fixC1Store fixC1Fetch
      200).liquidations.length = 1 := by with_unfolding_all rfl
  rw [heq] at hlen
  simp [fixC1Store] at hlen

/-- C3 counterexample: on a sub-batch containing an Updated and a
Liquidated event for the same OPEN position, the code's processing order
(Opened, Closed, Liquidated, Updated) produces a different store than the
claimed order (Opened, Closed, Updated, Liquidated) — so the indexer does
not process Updated before Liquidated. -/
theorem C3_counterexample :
    BlockchainIndexer.process_checkpoint_range fixC1Store fixC3Batch ≠
    BlockchainIndexer.process_checkpoint_range_claimed_order fixC1Store
      fixC3Batch := by
  intro heq
  have h1 : (BlockchainIndexer.process_checkpoint_range fixC1Store
      fixC3Batch).toOption.bind
      (fun t => (t.positions.find? (fun p => decide (p.position_id = "pos-1"))).map
        Position.size) = some 10 := by with_unfolding_all rfl
  rw [heq] at h1
  have h2 : (BlockchainIndexer.process_checkpoint_range_claimed_order fixC1Store
      fixC3Batch).toOption.bind
      (fun t => (t.positions.find? (fun p => decide (p.position_id = "pos-1"))).map
        Position.size) = some 5 := by with_unfolding_all rfl
  rw [h1] at h2
  have h3 : (10 : ℚ) = 5 := by injection h2
  norm_num at h3

/-- C3 amended: `_process_checkpoint_range` processes the categories in the
order Opened, Closed, Liquidated, Updated (indexer.py:136-139) — the
Updated events of a sub-batch are applied after its Liquidated events. -/
theorem C3_amended_order (s : Store) (b : BlockchainIndexer.EventBatch) :
    BlockchainIndexer.process_checkpoint_range s b =
      Except.map
        (fun s₃ => BlockchainIndexer.index_position_updated_batch s₃ b.updated)
        (BlockchainIndexer.index_liquidations_batch
          (BlockchainIndexer.index_position_closed_batch
            (BlockchainIndexer.index_position_opened_batch s b.opened) b.closed)
          b.liquidated) := by
  cases hx : BlockchainIndexer.index_liquidations_batch
      (BlockchainIndexer.index_position_closed_batch
        (BlockchainIndexer.index_position_opened_batch s b.opened) b.closed)
      b.liquidated with
  | error msg =>
    simp [BlockchainIndexer.process_checkpoint_range, hx, Except.map]
  | ok s₃ =>
    simp [BlockchainIndexer.process_checkpoint_range, hx, Except.map]

/-- Soundness of the candidate scan loop: every candidate an `.ok` run
returns was built from a joined row whose price sample passed both the
freshness gate and the confidence gate, and carries that sample's
normalized price. -/
theorem scan_positions_sound (prices : String → Option PriceData)
    (cooldown : List String) (now : ℤ) (rows : List (Position × Market)) :
    ∀ (cs : List LiquidationCandidate),
      LiquidationBot.scan_positions prices cooldown now rows = .ok cs →
      ∀ c ∈ cs, ∃ pm, pm ∈ rows ∧ ∃ pd,
        prices pm.2.pyth_price_id = some pd ∧
        PythOracleService.is_price_fresh pd now 30 = true ∧
        PythOracleService.is_price_confident pd (1/100) = true ∧
        pm.1.position_id = c.position_id ∧
        c.current_price = pd.normalized_price := by
  induction rows with
  | nil =>
    intro cs h c hc
    simp only [LiquidationBot.scan_positions] at h
    cases h
    simp at hc
  | cons head tail ih =>
    obtain ⟨position, market⟩ := head
    intro cs h c hc
    simp only [LiquidationBot.scan_positions] at h
    split at h
    · obtain ⟨pm, hpm, rest⟩ := ih cs h c hc
      exact ⟨pm, List.mem_cons_of_mem _ hpm, rest⟩
    · split at h
      · obtain ⟨pm, hpm, rest⟩ := ih cs h c hc
        exact ⟨pm, List.mem_cons_of_mem _ hpm, rest⟩
      · next pd hpd =>
        split at h
        · obtain ⟨pm, hpm, rest⟩ := ih cs h c hc
          exact ⟨pm, List.mem_cons_of_mem _ hpm, rest⟩
        · next hfresh =>
          split at h
          · obtain ⟨pm, hpm, rest⟩ := ih cs h c hc
            exact ⟨pm, List.mem_cons_of_mem _ hpm, rest⟩
          · next hconf =>
            split at h
            · split at h
              · exact absurd h (by simp)
              · next lp hlp =>
                split at h
                · exact absurd h (by simp)
                · next cands hcands =>
                  rw [Except.ok.injEq] at h
                  subst h
                  rcases List.mem_cons.mp hc with rfl | hc'
                  · refine ⟨(position, market), List.mem_cons_self _ _, pd, hpd,
                      ?_, ?_, rfl, rfl⟩
                    · exact of_not_not hfresh
                    · exact of_not_not hconf
                  · obtain ⟨pm, hpm, rest⟩ := ih cands hcands c hc'
                    exact ⟨pm, List.mem_cons_of_mem _ hpm, rest⟩
            · obtain ⟨pm, hpm, rest⟩ := ih cs h c hc
              exact ⟨pm, List.mem_cons_of_mem _ hpm, rest⟩

/-- C7: `find_liquidation_candidates` never returns a position whose price
sample is stale (age strictly greater than 30 seconds) or low-confidence
(zero price, or confidence/price ratio strictly greater than 1%): every
returned candidate corresponds to an OPEN position whose market's price
sample exists, has age at most 30 seconds, a non-zero price and a
confidence ratio at most 1%. -/
theorem C7_candidates_have_fresh_confident_prices (s : Store)
    (prices : String → Option PriceData) (cooldown : List String) (now : ℤ)
    (cs : List LiquidationCandidate) (c : LiquidationCandidate)
    (hok : LiquidationBot.find_liquidation_candidates s prices cooldown now
      = .ok cs)
    (hc : c ∈ cs) :
    ∃ p m pd, p ∈ s.positions ∧ p.status = PositionStatus.statusOpen ∧
      p.position_id = c.position_id ∧
      s.markets.find? (fun m' => decide (m'.market_id = p.market_id)) = some m ∧
      prices m.pyth_price_id = some pd ∧
      now - pd.publish_time ≤ 30 ∧
      pd.price ≠ 0 ∧
      pd.confidence / |pd.price| ≤ 1 / 100 ∧
      c.current_price = pd.normalized_price := by
  rw [LiquidationBot.find_liquidation_candidates] at hok
  cases hscan : LiquidationBot.scan_positions prices cooldown now
      (LiquidationBot.open_positions_with_markets s) with
  | error msg => rw [hscan] at hok; exact absurd hok (by simp)
  | ok cands =>
    rw [hscan] at hok
    rw [Except.ok.injEq] at hok
    subst hok
    have hc' : c ∈ cands := ((List.mergeSort_perm cands _).mem_iff).mp hc
    obtain ⟨pm, hpm, pd, hpd, hfresh, hconf, hid, hcp⟩ :=
      scan_positions_sound prices cooldown now
        (LiquidationBot.open_positions_with_markets s) cands hscan c hc'
    obtain ⟨p, hp, hst, m, hm, hpair⟩ :
        ∃ a ∈ s.positions, a.status = PositionStatus.statusOpen ∧
          ∃ mk, s.markets.find? (fun m' => decide (m'.market_id = a.market_id))
              = some mk ∧ (a, mk) = pm := by
      simpa [LiquidationBot.open_positions_with_markets] using hpm
    subst hpair
    refine ⟨p, m, pd, hp, hst, hid, hm, hpd, ?_, ?_, ?_, hcp⟩
    · have := of_decide_eq_true hfresh
      simpa [PriceData.age_seconds] using this
    · intro h0
      rw [PythOracleService.is_price_confident, if_pos h0] at hconf
      exact absurd hconf (by simp)
    · by_cases h0 : pd.price = 0
      · rw [PythOracleService.is_price_confident, if_pos h0] at hconf
        exact absurd hconf (by simp)
      · rw [PythOracleService.is_price_confident, if_neg h0] at hconf
        exact of_decide_eq_true hconf

/-- Witness for C7 on the concrete fixture store, price map and clock. -/
theorem C7_candidates_witness :
    ∃ p m pd, p ∈ fixC1Store.positions ∧ p.status = PositionStatus.statusOpen ∧
      p.position_id = fixCandidate.position_id ∧
      fixC1Store.markets.find? (fun m' => decide (m'.market_id = p.market_id))
        = some m ∧
      fixPrices m.pyth_price_id = some pd ∧
      (1000 : ℤ) - pd.publish_time ≤ 30 ∧
      pd.price ≠ 0 ∧
      pd.confidence / |pd.price| ≤ 1 / 100 ∧
      fixCandidate.current_price = pd.normalized_price :=
  C7_candidates_have_fresh_confident_prices fixC1Store fixPrices [] 1000
    [fixCandidate] fixCandidate (by with_unfolding_all rfl)
    (List.mem_singleton.mpr rfl)

end Tumo
